import Mathlib

/-!
Shallow embedding of the `isatty` crate (`src/lib.rs`).

The crate exposes three public boolean queries (`stdin_isatty`,
`stdout_isatty`, `stderr_isatty`).  On unix they dispatch through
`unix::isatty` over `libc::isatty` on file descriptors 0/1/2; on windows they
dispatch through `windows::isatty`, which first runs the msys/cygwin
pseudo-terminal heuristic `is_cygwin_pty` (via `GetFileInformationByHandleEx`)
and then falls back to `GetConsoleMode`.

Platform primitives are modelled as explicit environments of functions
(`unix.Env`, `windows.Env`); the Rust functions become pure Lean functions of
such an environment.  A Rust slice-out-of-range panic is modelled as `none` in
an `Option Bool` result.
-/

set_option maxRecDepth 8192

namespace Isatty

namespace stream

/-- `stream::Stream` in the non-windows configuration: three variants. -/
inductive Stream where
  | Stdin
  | Stdout
  | Stderr
deriving DecidableEq

/-- `stream::Stream` in the windows configuration: the `Stdin` variant is
behind `#[cfg(not(windows))]` and does not exist there. -/
inductive StreamWin where
  | Stdout
  | Stderr
deriving DecidableEq

end stream

namespace unix

/-- `libc::STDIN_FILENO`. -/
def STDIN_FILENO : Int := 0

/-- `libc::STDOUT_FILENO`. -/
def STDOUT_FILENO : Int := 1

/-- `libc::STDERR_FILENO`. -/
def STDERR_FILENO : Int := 2

/-- The unix platform primitive: `libc::isatty`, a function from a file
descriptor to a C `int` result. -/
structure Env where
  isatty : Int → Int

/-- The `match stream { ... }` mapping a stream to its file descriptor in
`unix::isatty`. -/
def fd : stream.Stream → Int
  | .Stdin => STDIN_FILENO
  | .Stdout => STDOUT_FILENO
  | .Stderr => STDERR_FILENO

/-- `unix::isatty`: `libc::isatty(fd) != 0`. -/
def isatty (env : Env) (s : stream.Stream) : Bool :=
  env.isatty (fd s) != 0

end unix

/-- `pub fn stdin_isatty` (non-windows configuration). -/
def stdin_isatty (env : unix.Env) : Bool :=
  unix.isatty env .Stdin

/-- `pub fn stdout_isatty` (unix configuration). -/
def stdout_isatty (env : unix.Env) : Bool :=
  unix.isatty env .Stdout

/-- `pub fn stderr_isatty` (unix configuration). -/
def stderr_isatty (env : unix.Env) : Bool :=
  unix.isatty env .Stderr

namespace windows

/-- `winapi::minwindef::MAX_PATH`. -/
def MAX_PATH : Nat := 260

/-- `winapi::winbase::STD_OUTPUT_HANDLE` (`-11i32 as u32`). -/
def STD_OUTPUT_HANDLE : Nat := 4294967285

/-- `winapi::winbase::STD_ERROR_HANDLE` (`-12i32 as u32`). -/
def STD_ERROR_HANDLE : Nat := 4294967284

/-- `winapi::INVALID_HANDLE_VALUE`, the failure value of `GetStdHandle`. -/
def INVALID_HANDLE_VALUE : Int := -1

/-- The part of the `FILE_NAME_INFO` result of a successful
`GetFileInformationByHandleEx(FileNameInfo)` call that the code reads: the
`FileNameLength` field (in bytes) and the byte region of the buffer lying
after the struct header (`name_info_bytes[size..]`, `MAX_PATH` bytes in a
real call). -/
structure FILE_NAME_INFO where
  FileNameLength : Nat
  nameBytes : List Nat
deriving DecidableEq

/-- The windows platform primitives used by `windows::isatty`:
`GetStdHandle`, `GetFileInformationByHandleEx` (`none` = the call returned 0,
i.e. failed) and `GetConsoleMode` (the returned `BOOL`). -/
structure Env where
  getStdHandle : Nat → Int
  getFileInformationByHandleEx : Int → Option FILE_NAME_INFO
  getConsoleMode : Int → Int

/-- `slice::from_raw_parts(name_bytes.as_ptr() as *const u16,
name_bytes.len() / 2)`: reinterpret bytes as little-endian 16-bit units,
discarding an odd trailing byte. -/
def toU16 : List Nat → List Nat
  | [] => []
  | [_] => []
  | b0 :: b1 :: rest => (b0 + 256 * b1) :: toU16 rest

/-- `OsString::from_wide(..).to_string_lossy()`: UTF-16 decoding where a
surrogate pair yields its supplementary code point and an unpaired surrogate
is replaced by U+FFFD. -/
def utf16Decode : List Nat → List Nat
  | [] => []
  | [u] => if u < 0xD800 ∨ 0xE000 ≤ u then [u] else [0xFFFD]
  | u :: v :: rest =>
    if u < 0xD800 ∨ 0xE000 ≤ u then
      u :: utf16Decode (v :: rest)
    else if u < 0xDC00 ∧ 0xDC00 ≤ v ∧ v < 0xE000 then
      (0x10000 + (u - 0xD800) * 0x400 + (v - 0xDC00)) :: utf16Decode rest
    else
      0xFFFD :: utf16Decode (v :: rest)

/-- Does `hay` start with `needle`? -/
def listStartsWith : List Nat → List Nat → Bool
  | _, [] => true
  | [], _ :: _ => false
  | a :: as, b :: bs => a == b && listStartsWith as bs

/-- `str::contains` for an ASCII pattern, at code-point level: does `hay`
contain `needle` as a contiguous run? -/
def containsSub (hay needle : List Nat) : Bool :=
  match hay with
  | [] => needle.isEmpty
  | _ :: t => listStartsWith hay needle || containsSub t needle

/-- The code points of the pattern `"msys-"`. -/
def msysPat : List Nat := [109, 115, 121, 115, 45]

/-- The code points of the pattern `"-pty"`. -/
def ptyPat : List Nat := [45, 112, 116, 121]

/-- The `name` string computed by `is_cygwin_pty` from a successful query
result: slice `FileNameLength` bytes after the header, pair them into wide
characters, decode lossily. -/
def decodedName (info : FILE_NAME_INFO) : List Nat :=
  utf16Decode (toU16 (info.nameBytes.take info.FileNameLength))

/-- `windows::is_cygwin_pty`.  A failed `GetFileInformationByHandleEx` call
returns `true`.  On success the code slices
`name_info_bytes[size..size + FileNameLength]` out of a buffer of
`size + MAX_PATH` bytes: when `FileNameLength > MAX_PATH` that slice is out
of range and the Rust code panics, modelled as `none`.  Otherwise the result
is the substring test on the lossily decoded name. -/
def is_cygwin_pty (env : Env) (handle : Int) : Option Bool :=
  match env.getFileInformationByHandleEx handle with
  | none => some true
  | some info =>
    if info.FileNameLength ≤ MAX_PATH then
      some (containsSub (decodedName info) msysPat ||
        containsSub (decodedName info) ptyPat)
    else
      none

/-- The `match stream { ... }` in `windows::isatty` mapping a stream to its
standard-handle identifier. -/
def handleId : stream.StreamWin → Nat
  | .Stdout => STD_OUTPUT_HANDLE
  | .Stderr => STD_ERROR_HANDLE

/-- `windows::isatty`: resolve the handle (its result is never checked),
run `is_cygwin_pty`, return `true` on a heuristic hit, otherwise
`GetConsoleMode(handle, &mut out) != 0`.  `none` propagates the
`is_cygwin_pty` panic. -/
def isatty (env : Env) (s : stream.StreamWin) : Option Bool :=
  let handle := env.getStdHandle (handleId s)
  match is_cygwin_pty env handle with
  | none => none
  | some b => if b then some true else some (env.getConsoleMode handle != 0)

/-- Is a code point a Unicode scalar value (not a surrogate, at most
U+10FFFF)? -/
def validScalar (c : Nat) : Bool :=
  c < 0xD800 || (0xE000 ≤ c && c ≤ 0x10FFFF)

end windows

/-- `pub fn stdout_isatty` (windows configuration). -/
def stdout_isattyWin (env : windows.Env) : Option Bool :=
  windows.isatty env .Stdout

/-- `pub fn stderr_isatty` (windows configuration). -/
def stderr_isattyWin (env : windows.Env) : Option Bool :=
  windows.isatty env .Stderr

namespace windows

/-- A windows environment where handle resolution fails
(`GetStdHandle` yields `INVALID_HANDLE_VALUE`), the file-information query on
that invalid handle fails, and `GetConsoleMode` fails (returns 0). -/
def envInvalidHandle : Env :=
  { getStdHandle := fun _ => INVALID_HANDLE_VALUE
    getFileInformationByHandleEx := fun _ => none
    getConsoleMode := fun _ => 0 }

/-- A windows environment where the file-information query fails on every
handle and the console-mode call also fails. -/
def envFileInfoFail : Env :=
  { getStdHandle := fun _ => 5
    getFileInformationByHandleEx := fun _ => none
    getConsoleMode := fun _ => 0 }

/-- A windows environment whose handle's filename decodes to `"msys-"`
(UTF-16LE bytes), with a failing console-mode call. -/
def envMsys : Env :=
  { getStdHandle := fun _ => 3
    getFileInformationByHandleEx := fun _ =>
      some ⟨10, [109, 0, 115, 0, 121, 0, 115, 0, 45, 0]⟩
    getConsoleMode := fun _ => 0 }

/-- A windows environment whose handle's filename decodes to `"abc"`
(matching neither pattern), with a failing console-mode call. -/
def envAbc : Env :=
  { getStdHandle := fun _ => 4
    getFileInformationByHandleEx := fun _ => some ⟨6, [97, 0, 98, 0, 99, 0]⟩
    getConsoleMode := fun _ => 0 }

/-- A windows environment whose file-information query reports
`FileNameLength = MAX_PATH + 1`, exceeding the `MAX_PATH`-byte name region of
the supplied buffer. -/
def envOversized : Env :=
  { getStdHandle := fun _ => 7
    getFileInformationByHandleEx := fun _ =>
      some ⟨MAX_PATH + 1, List.replicate MAX_PATH 0⟩
    getConsoleMode := fun _ => 0 }

/-- A windows environment whose handle's filename bytes are a lone high
surrogate (not a valid wide-character sequence), with a failing console-mode
call. -/
def envLoneSurrogate : Env :=
  { getStdHandle := fun _ => 8
    getFileInformationByHandleEx := fun _ => some ⟨2, [0, 216]⟩
    getConsoleMode := fun _ => 0 }

/-- A windows environment whose file-information query succeeds with an empty
filename (`FileNameLength = 0`) and whose console-mode call succeeds. -/
def envEmptyName : Env :=
  { getStdHandle := fun _ => 2
    getFileInformationByHandleEx := fun _ => some ⟨0, []⟩
    getConsoleMode := fun _ => 7 }

/-- A windows environment where every primitive fails. -/
def envZero : Env :=
  { getStdHandle := fun _ => 0
    getFileInformationByHandleEx := fun _ => none
    getConsoleMode := fun _ => 0 }

end windows

end Isatty

namespace Isatty

/-- `toU16` pairs bytes two at a time: the result has `⌊length / 2⌋`
entries (an odd trailing byte is discarded). -/
theorem toU16_length (l : List Nat) :
    (windows.toU16 l).length = l.length / 2 := by
  induction l using windows.toU16.induct with
  | case1 => rfl
  | case2 => simp [windows.toU16]
  | case3 b0 b1 rest ih => simp [windows.toU16, ih]; omega

/-- Every 16-bit unit produced by `toU16` from bytes below 256 is below
65536. -/
theorem toU16_lt (l : List Nat) (hl : (l.all fun b => b < 256) = true) :
    ((windows.toU16 l).all fun u => u < 65536) = true := by
  induction l using windows.toU16.induct with
  | case1 => rfl
  | case2 => simp [windows.toU16]
  | case3 b0 b1 rest ih =>
    simp only [List.all_cons, Bool.and_eq_true, decide_eq_true_eq] at hl
    simp only [windows.toU16, List.all_cons, Bool.and_eq_true, decide_eq_true_eq]
    exact ⟨by omega, ih hl.2.2⟩

/-- `utf16Decode` is total and lossy: from units below 65536 it produces only
Unicode scalar values (no surrogates, nothing above U+10FFFF). -/
theorem utf16Decode_valid (us : List Nat)
    (hu : (us.all fun u => u < 65536) = true) :
    ((windows.utf16Decode us).all windows.validScalar) = true := by
  induction us using windows.utf16Decode.induct with
  | case1 => rfl
  | case2 u h =>
    simp only [List.all_cons, Bool.and_eq_true, decide_eq_true_eq] at hu
    rw [windows.utf16Decode, if_pos h]
    simp only [List.all_cons, List.all_nil, Bool.and_true, windows.validScalar,
      Bool.or_eq_true, Bool.and_eq_true, decide_eq_true_eq]
    omega
  | case3 u h =>
    rw [windows.utf16Decode, if_neg h]
    simp [windows.validScalar]
  | case4 u v rest h ih =>
    simp only [List.all_cons, Bool.and_eq_true, decide_eq_true_eq] at hu
    rw [windows.utf16Decode, if_pos h]
    simp only [List.all_cons, Bool.and_eq_true]
    refine ⟨?_, ih (by simp [hu.2.1, hu.2.2])⟩
    simp only [windows.validScalar, Bool.or_eq_true, Bool.and_eq_true,
      decide_eq_true_eq]
    omega
  | case5 u v rest h hp ih =>
    simp only [List.all_cons, Bool.and_eq_true, decide_eq_true_eq] at hu
    rw [windows.utf16Decode, if_neg h, if_pos hp]
    simp only [List.all_cons, Bool.and_eq_true]
    refine ⟨?_, ih (by simp [hu.2.2])⟩
    simp only [windows.validScalar, Bool.or_eq_true, Bool.and_eq_true,
      decide_eq_true_eq]
    push_neg at h
    omega
  | case6 u v rest h hp ih =>
    simp only [List.all_cons, Bool.and_eq_true, decide_eq_true_eq] at hu
    rw [windows.utf16Decode, if_neg h, if_neg hp]
    simp only [List.all_cons, Bool.and_eq_true]
    exact ⟨by simp [windows.validScalar], ih (by simp [hu.2.1, hu.2.2])⟩


/-- C1: on the POSIX-family backend, every stream kind maps to file
descriptor 0, 1 or 2 respectively, and the query returns true iff the native
`isatty` primitive on that descriptor is nonzero. -/
theorem unix_isatty_fd_spec (env : unix.Env) (s : stream.Stream) :
    (unix.isatty env s = true ↔ env.isatty (unix.fd s) ≠ 0) ∧
    unix.fd .Stdin = 0 ∧ unix.fd .Stdout = 1 ∧ unix.fd .Stderr = 2 := by
  refine ⟨?_, rfl, rfl, rfl⟩
  simp [unix.isatty, bne_iff_ne]

/-- C2: on the windows backend, a failing `GetFileInformationByHandleEx`
call makes the query return true, whatever `GetConsoleMode` would return. -/
theorem windows_fileinfo_fail_true (env : windows.Env) (s : stream.StreamWin)
    (h : env.getFileInformationByHandleEx
      (env.getStdHandle (windows.handleId s)) = none) :
    windows.isatty env s = some true := by
  simp [windows.isatty, windows.is_cygwin_pty, h]

/-- Witness for C2 at a concrete environment whose file-information query and
console-mode call both fail. -/
theorem windows_fileinfo_fail_true_witness :
    windows.isatty windows.envFileInfoFail .Stdout = some true :=
  windows_fileinfo_fail_true windows.envFileInfoFail .Stdout rfl

/-- C3: on the windows backend, when the file-information query succeeds and
the decoded filename contains `"msys-"` or `"-pty"`, the query returns true
for every possible `GetConsoleMode` primitive (the console-mode call is not
consulted). -/
theorem windows_emulation_true (env : windows.Env) (s : stream.StreamWin)
    (info : windows.FILE_NAME_INFO)
    (hfi : env.getFileInformationByHandleEx
      (env.getStdHandle (windows.handleId s)) = some info)
    (hlen : info.FileNameLength ≤ windows.MAX_PATH)
    (hmatch : (windows.containsSub (windows.decodedName info) windows.msysPat ||
      windows.containsSub (windows.decodedName info) windows.ptyPat) = true) :
    ∀ cm : Int → Int,
      windows.isatty { env with getConsoleMode := cm } s = some true := by
  intro cm
  simp [windows.isatty, windows.is_cygwin_pty, hfi, hlen, hmatch]

/-- Witness for C3 at an environment whose filename is `"msys-"` and whose
console-mode call fails. -/
theorem windows_emulation_true_witness :
    windows.isatty { windows.envMsys with getConsoleMode := fun _ => 0 }
      .Stdout = some true :=
  windows_emulation_true windows.envMsys .Stdout
    ⟨10, [109, 0, 115, 0, 121, 0, 115, 0, 45, 0]⟩ rfl (by decide) (by decide)
    (fun _ => 0)

/-- C4: on the windows backend, when the file-information query succeeds and
the decoded filename matches neither pattern, the query returns exactly what
`GetConsoleMode(handle) != 0` gives; in particular a failing console-mode
call yields false. -/
theorem windows_no_emulation_consolemode (env : windows.Env)
    (s : stream.StreamWin) (info : windows.FILE_NAME_INFO)
    (hfi : env.getFileInformationByHandleEx
      (env.getStdHandle (windows.handleId s)) = some info)
    (hlen : info.FileNameLength ≤ windows.MAX_PATH)
    (hm1 : windows.containsSub (windows.decodedName info) windows.msysPat = false)
    (hm2 : windows.containsSub (windows.decodedName info) windows.ptyPat = false) :
    windows.isatty env s =
      some (env.getConsoleMode (env.getStdHandle (windows.handleId s)) != 0) ∧
    (env.getConsoleMode (env.getStdHandle (windows.handleId s)) = 0 →
      windows.isatty env s = some false) := by
  have h1 : windows.isatty env s =
      some (env.getConsoleMode (env.getStdHandle (windows.handleId s)) != 0) := by
    simp [windows.isatty, windows.is_cygwin_pty, hfi, hlen, hm1, hm2]
  refine ⟨h1, fun hz => ?_⟩
  rw [h1, hz]
  rfl

/-- Witness for C4 at an environment whose filename is `"abc"` and whose
console-mode call fails: the query returns false. -/
theorem windows_no_emulation_consolemode_witness :
    windows.isatty windows.envAbc .Stdout = some false :=
  (windows_no_emulation_consolemode windows.envAbc .Stdout
    ⟨6, [97, 0, 98, 0, 99, 0]⟩ rfl (by decide) (by decide) (by decide)).2 rfl

/-- Counterexample to C5: in an environment where handle resolution fails
(`GetStdHandle` yields `INVALID_HANDLE_VALUE`) and every call on the invalid
handle fails, the windows query returns true, not false: the code never
checks the resolved handle, and the failing file-information query inside the
emulation check maps to true. -/
theorem invalid_handle_returns_true_cex :
    windows.envInvalidHandle.getStdHandle windows.STD_OUTPUT_HANDLE =
      windows.INVALID_HANDLE_VALUE ∧
    windows.envInvalidHandle.getFileInformationByHandleEx
      windows.INVALID_HANDLE_VALUE = none ∧
    windows.envInvalidHandle.getConsoleMode windows.INVALID_HANDLE_VALUE = 0 ∧
    windows.isatty windows.envInvalidHandle .Stdout = some true ∧
    windows.isatty windows.envInvalidHandle .Stdout ≠ some false :=
  ⟨rfl, rfl, rfl, rfl, by decide⟩

/-- C5 amended: when handle resolution fails, the query on the invalid handle
is decided by the calls made on it; since the file-information query on the
invalid handle fails, the query returns true, not false. -/
theorem invalid_handle_amended (env : windows.Env) (s : stream.StreamWin)
    (hinv : env.getStdHandle (windows.handleId s) = windows.INVALID_HANDLE_VALUE)
    (hfail : env.getFileInformationByHandleEx windows.INVALID_HANDLE_VALUE = none) :
    windows.isatty env s = some true := by
  simp [windows.isatty, windows.is_cygwin_pty, hinv, hfail]

/-- Witness for the amended C5 at a concrete failing environment. -/
theorem invalid_handle_amended_witness :
    windows.isatty windows.envInvalidHandle .Stderr = some true :=
  invalid_handle_amended windows.envInvalidHandle .Stderr rfl rfl

/-- Counterexample to C6: a successful file-information query reporting
`FileNameLength = MAX_PATH + 1` (exceeding the buffer's name region) makes
the slice in `is_cygwin_pty` go out of range, so the Rust code panics
(modelled `none`); it does not fall through to the console-mode check, whose
result here would be `some false`. -/
theorem oversized_length_panics_cex :
    windows.envOversized.getFileInformationByHandleEx 7 =
      some ⟨windows.MAX_PATH + 1, List.replicate windows.MAX_PATH 0⟩ ∧
    windows.isatty windows.envOversized .Stdout = none ∧
    windows.isatty windows.envOversized .Stdout ≠ some false :=
  ⟨rfl, rfl, by decide⟩

/-- C6 amended: when the file-information query succeeds, a reported filename
length exceeding the buffer's name region makes the code panic (out-of-range
slice) instead of falling through; a length within the buffer never panics:
invalid wide characters are replaced lossily, and if the lossily decoded name
matches neither pattern the query falls through to the console-mode check. -/
theorem malformed_metadata_amended (env : windows.Env) (s : stream.StreamWin)
    (info : windows.FILE_NAME_INFO)
    (hfi : env.getFileInformationByHandleEx
      (env.getStdHandle (windows.handleId s)) = some info) :
    (windows.MAX_PATH < info.FileNameLength → windows.isatty env s = none) ∧
    (info.FileNameLength ≤ windows.MAX_PATH →
      windows.containsSub (windows.decodedName info) windows.msysPat = false →
      windows.containsSub (windows.decodedName info) windows.ptyPat = false →
      windows.isatty env s =
        some (env.getConsoleMode (env.getStdHandle (windows.handleId s)) != 0)) := by
  constructor
  · intro hover
    simp [windows.isatty, windows.is_cygwin_pty, hfi, Nat.not_le.mpr hover]
  · intro hlen hm1 hm2
    simp [windows.isatty, windows.is_cygwin_pty, hfi, hlen, hm1, hm2]

/-- Witness for the amended C6 at an environment whose filename bytes are a
lone high surrogate: the name decodes lossily to U+FFFD, matches nothing, and
the query falls through to the failing console-mode call. -/
theorem malformed_metadata_amended_witness :
    windows.isatty windows.envLoneSurrogate .Stdout = some false :=
  (malformed_metadata_amended windows.envLoneSurrogate .Stdout ⟨2, [0, 216]⟩
    rfl).2 (by decide) (by decide) (by decide)

/-- C7: in the windows configuration the stream type has exactly the two
variants `Stdout` and `Stderr` (no `Stdin`), and the handle dispatch is total
over exactly those two, mapping them to the standard output/error handle
identifiers. -/
theorem winstream_exactly_two :
    (∀ s : stream.StreamWin,
      s = stream.StreamWin.Stdout ∨ s = stream.StreamWin.Stderr) ∧
    stream.StreamWin.Stdout ≠ stream.StreamWin.Stderr ∧
    (∀ s : stream.StreamWin,
      windows.handleId s = windows.STD_OUTPUT_HANDLE ∨
      windows.handleId s = windows.STD_ERROR_HANDLE) := by
  refine ⟨fun s => ?_, by decide, fun s => ?_⟩
  · cases s
    · exact Or.inl rfl
    · exact Or.inr rfl
  · cases s
    · exact Or.inl rfl
    · exact Or.inr rfl

/-- C8: the queries keep no state: two invocations under platform primitives
that answer identically (no intervening redirection) return the same value,
on both backends and for every public entry point. -/
theorem queries_stateless (e1 e2 : unix.Env) (w1 w2 : windows.Env)
    (hu : ∀ n, e1.isatty n = e2.isatty n)
    (hg : ∀ n, w1.getStdHandle n = w2.getStdHandle n)
    (hf : ∀ h, w1.getFileInformationByHandleEx h =
      w2.getFileInformationByHandleEx h)
    (hc : ∀ h, w1.getConsoleMode h = w2.getConsoleMode h) :
    stdin_isatty e1 = stdin_isatty e2 ∧
    stdout_isatty e1 = stdout_isatty e2 ∧
    stderr_isatty e1 = stderr_isatty e2 ∧
    stdout_isattyWin w1 = stdout_isattyWin w2 ∧
    stderr_isattyWin w1 = stderr_isattyWin w2 := by
  obtain ⟨f1⟩ := e1
  obtain ⟨f2⟩ := e2
  obtain ⟨g1, i1, c1⟩ := w1
  obtain ⟨g2, i2, c2⟩ := w2
  have h1 : f1 = f2 := funext hu
  have h2 : g1 = g2 := funext hg
  have h3 : i1 = i2 := funext hf
  have h4 : c1 = c2 := funext hc
  subst h1 h2 h3 h4
  exact ⟨rfl, rfl, rfl, rfl, rfl⟩

/-- Witness for C8 at concrete identical environments. -/
theorem queries_stateless_witness :
    stdin_isatty ⟨fun _ => 1⟩ = stdin_isatty ⟨fun _ => 1⟩ ∧
    stdout_isatty ⟨fun _ => 1⟩ = stdout_isatty ⟨fun _ => 1⟩ ∧
    stderr_isatty ⟨fun _ => 1⟩ = stderr_isatty ⟨fun _ => 1⟩ ∧
    stdout_isattyWin windows.envZero = stdout_isattyWin windows.envZero ∧
    stderr_isattyWin windows.envZero = stderr_isattyWin windows.envZero :=
  queries_stateless ⟨fun _ => 1⟩ ⟨fun _ => 1⟩ windows.envZero windows.envZero
    (fun _ => rfl) (fun _ => rfl) (fun _ => rfl) (fun _ => rfl)

/-- C9: a successful file-information query reporting `FileNameLength = 0`
decodes to the empty name, matches neither pattern, and the query result is
exactly the console-mode test on the handle. -/
theorem zero_length_name (env : windows.Env) (s : stream.StreamWin)
    (info : windows.FILE_NAME_INFO)
    (hfi : env.getFileInformationByHandleEx
      (env.getStdHandle (windows.handleId s)) = some info)
    (hzero : info.FileNameLength = 0) :
    windows.decodedName info = [] ∧
    windows.containsSub (windows.decodedName info) windows.msysPat = false ∧
    windows.containsSub (windows.decodedName info) windows.ptyPat = false ∧
    windows.isatty env s =
      some (env.getConsoleMode (env.getStdHandle (windows.handleId s)) != 0) := by
  have hd : windows.decodedName info = [] := by
    simp [windows.decodedName, hzero, windows.toU16, windows.utf16Decode]
  refine ⟨hd, ?_, ?_, ?_⟩
  · rw [hd]; rfl
  · rw [hd]; rfl
  · have hlen : info.FileNameLength ≤ windows.MAX_PATH := by
      rw [hzero]; exact Nat.zero_le _
    have hm1 : windows.containsSub [] windows.msysPat = false := rfl
    have hm2 : windows.containsSub [] windows.ptyPat = false := rfl
    simp [windows.isatty, windows.is_cygwin_pty, hfi, hlen, hd, hm1, hm2]

/-- Witness for C9 at an environment with an empty filename and a succeeding
console-mode call. -/
theorem zero_length_name_witness :
    windows.decodedName ⟨0, []⟩ = [] ∧
    windows.containsSub (windows.decodedName ⟨0, []⟩) windows.msysPat = false ∧
    windows.containsSub (windows.decodedName ⟨0, []⟩) windows.ptyPat = false ∧
    windows.isatty windows.envEmptyName .Stdout =
      some (windows.envEmptyName.getConsoleMode
        (windows.envEmptyName.getStdHandle (windows.handleId .Stdout)) != 0) :=
  zero_length_name windows.envEmptyName .Stdout ⟨0, []⟩ rfl rfl

/-- C10: the filename decoding is total: pairing the bytes yields exactly
`⌊length / 2⌋` wide characters (an odd trailing byte is discarded), and the
lossy UTF-16 decode of those characters always yields a defined string of
Unicode scalar values, never a failure. -/
theorem decode_total_defined (bytes : List Nat)
    (hb : (bytes.all fun b => b < 256) = true) :
    (windows.toU16 bytes).length = bytes.length / 2 ∧
    ((windows.utf16Decode (windows.toU16 bytes)).all windows.validScalar) = true :=
  ⟨toU16_length bytes, utf16Decode_valid _ (toU16_lt bytes hb)⟩

/-- Witness for C10 at an odd-length byte list encoding a lone high
surrogate. -/
theorem decode_total_defined_witness :
    (windows.toU16 [0, 216, 65]).length = [0, 216, 65].length / 2 ∧
    ((windows.utf16Decode (windows.toU16 [0, 216, 65])).all
      windows.validScalar) = true :=
  decode_total_defined [0, 216, 65] (by decide)

end Isatty
